import Mathlib

/-!
Verification development for the Step-Detection repository.

The repository contains two step-detection variants:

* `src/unnamed/part_000` (`StepScreen`): an adaptive peak–valley–peak
  detector fed by a gravity-removing signal conditioner;
* `src/app/(tabs)/RideScreen.tsx` (`RideScreen`): a hysteresis
  (rise/fall threshold) variant.

We shallowly embed both.  The detector's per-sample arithmetic uses only
rational constants, comparisons, `abs`, `max` and affine updates, so it is
embedded over `ℚ` (exact arithmetic, decidable for concrete runs).  The
conditioner computes a square root, so it is embedded over `ℝ`.
Timestamps are integers (milliseconds).

JavaScript number semantics matter for one claim (NaN handling): for that
we give a second, faithful embedding `detectStepJS` over `Option ℚ`, where
`none` models NaN — in JavaScript every comparison involving NaN is false
and every arithmetic operation (including `Math.abs` and `Math.max`)
propagates NaN.
-/

namespace StepDetection

namespace StepScreen

/-! ### Constants of `src/unnamed/part_000` -/

def MIN_STEP_PERIOD : ℤ := 500

def MAX_STEP_PERIOD : ℤ := 1000

def MIN_ACTIVITY_LEVEL : ℚ := 3/100

def ENERGY_ALPHA : ℚ := 95/100

def MIN_PEAK_THRESHOLD : ℚ := 1/5

def THRESHOLD_GAIN : ℚ := 3/2

/-- The mutable refs of the `StepScreen` component that `detectStep` reads
and writes: signal history, step logic flags, adaptive-threshold energy,
and the step counter. -/
structure DetectorState where
  prevDyn : ℚ
  prevPrevDyn : ℚ
  lastPeakTime : ℤ
  pendingPeak : Bool
  lastWasValley : Bool
  energy : ℚ
  stepCount : ℕ
deriving DecidableEq, Repr

/-- All refs start at 0 / false (`useRef(0)`, `useRef(false)`). -/
def initState : DetectorState :=
  { prevDyn := 0, prevPrevDyn := 0, lastPeakTime := 0,
    pendingPeak := false, lastWasValley := false, energy := 0, stepCount := 0 }

/-- The energy filter update: `energyRef.current = ENERGY_ALPHA * energyRef.current + (1 - ENERGY_ALPHA) * Math.abs(dyn)`. -/
def energyUpdate (energy dyn : ℚ) : ℚ :=
  ENERGY_ALPHA * energy + (1 - ENERGY_ALPHA) * |dyn|

/-- The working threshold: `adaptiveThreshold = Math.max(MIN_PEAK_THRESHOLD, energyRef.current * THRESHOLD_GAIN)`. -/
def adaptiveThreshold (energy : ℚ) : ℚ :=
  max MIN_PEAK_THRESHOLD (energy * THRESHOLD_GAIN)

/-- The `isValley` local of `detectStep`: the middle point `prev` is a local
minimum below `-adaptiveThreshold / 2`. -/
def isValley (prevPrev prev dyn thr : ℚ) : Prop :=
  prev < prevPrev ∧ prev < dyn ∧ prev < -thr / 2

instance (prevPrev prev dyn thr : ℚ) : Decidable (isValley prevPrev prev dyn thr) :=
  inferInstanceAs (Decidable (_ ∧ _ ∧ _))

/-- The `isPeak` local of `detectStep`: the middle point `prev` is a local
maximum above `adaptiveThreshold`. -/
def isPeak (prevPrev prev dyn thr : ℚ) : Prop :=
  prev > prevPrev ∧ prev > dyn ∧ prev > thr

instance (prevPrev prev dyn thr : ℚ) : Decidable (isPeak prevPrev prev dyn thr) :=
  inferInstanceAs (Decidable (_ ∧ _ ∧ _))

/-- One call of `detectStep(dyn)` at time `now`, returning the new ref state
and the emitted step event (the source increments `stepCount`; we also
surface the confirmation as `some now`, the StepEvent timestamp).
Mirrors the source's order: activity gate, energy/threshold update, valley
flag, peak handling, unconditional history shift. -/
def detectStep (s : DetectorState) (dyn : ℚ) (now : ℤ) : DetectorState × Option ℤ :=
  if |dyn| < MIN_ACTIVITY_LEVEL then
    (s, none)
  else
    let energy := energyUpdate s.energy dyn
    let thr := adaptiveThreshold energy
    let lwv := if isValley s.prevPrevDyn s.prevDyn dyn thr then true else s.lastWasValley
    if isPeak s.prevPrevDyn s.prevDyn dyn thr then
      let dt := now - s.lastPeakTime
      if s.pendingPeak = true ∧ lwv = true ∧ dt > MIN_STEP_PERIOD ∧ dt < MAX_STEP_PERIOD then
        ({ prevDyn := dyn, prevPrevDyn := s.prevDyn, lastPeakTime := now,
           pendingPeak := false, lastWasValley := false, energy := energy,
           stepCount := s.stepCount + 1 }, some now)
      else
        ({ prevDyn := dyn, prevPrevDyn := s.prevDyn, lastPeakTime := now,
           pendingPeak := true, lastWasValley := lwv, energy := energy,
           stepCount := s.stepCount }, none)
    else
      ({ prevDyn := dyn, prevPrevDyn := s.prevDyn, lastPeakTime := s.lastPeakTime,
         pendingPeak := s.pendingPeak, lastWasValley := lwv, energy := energy,
         stepCount := s.stepCount }, none)

/-- Run the detector over a list of `(dyn, timestamp)` samples, collecting
emitted step events in order. -/
def runDetector (s : DetectorState) : List (ℚ × ℤ) → DetectorState × List ℤ
  | [] => (s, [])
  | (dyn, t) :: rest =>
      let p := detectStep s dyn t
      let r := runDetector p.1 rest
      (r.1, p.2.toList ++ r.2)

theorem runDetector_nil (s : DetectorState) : runDetector s [] = (s, []) := rfl

/-- Unfolding lemma used to evaluate concrete runs one call at a time. -/
theorem runDetector_cons {s s' : DetectorState} {d : ℚ} {t : ℤ} {ev : Option ℤ}
    (rest : List (ℚ × ℤ)) (h : detectStep s d t = (s', ev)) :
    runDetector s ((d, t) :: rest) =
      ((runDetector s' rest).1, ev.toList ++ (runDetector s' rest).2) := by
  simp only [runDetector, h]

/-! ### Per-call characterization lemmas for `detectStep` -/

theorem detectStep_gated {dyn : ℚ} (s : DetectorState) (now : ℤ)
    (h : |dyn| < MIN_ACTIVITY_LEVEL) : detectStep s dyn now = (s, none) := by
  simp [detectStep, h]

theorem isPeak_not_isValley {ppp p d thr thr' : ℚ} (h : isPeak ppp p d thr) :
    ¬ isValley ppp p d thr' :=
  fun hv => absurd h.1 (not_lt.mpr hv.1.le)

/-- What one non-gated call does, split by the valley/peak/confirmation cases. -/
theorem detectStep_emit_iff (s : DetectorState) (dyn : ℚ) (now : ℤ) :
    (detectStep s dyn now).2 ≠ none ↔
      ¬ |dyn| < MIN_ACTIVITY_LEVEL
      ∧ isPeak s.prevPrevDyn s.prevDyn dyn (adaptiveThreshold (energyUpdate s.energy dyn))
      ∧ s.pendingPeak = true ∧ s.lastWasValley = true
      ∧ now - s.lastPeakTime > MIN_STEP_PERIOD ∧ now - s.lastPeakTime < MAX_STEP_PERIOD := by
  by_cases hg : |dyn| < MIN_ACTIVITY_LEVEL
  · simp [detectStep, hg]
  · by_cases hp : isPeak s.prevPrevDyn s.prevDyn dyn (adaptiveThreshold (energyUpdate s.energy dyn))
    · have hv : ¬ isValley s.prevPrevDyn s.prevDyn dyn
          (adaptiveThreshold (energyUpdate s.energy dyn)) := isPeak_not_isValley hp
      by_cases hc : s.pendingPeak = true ∧ s.lastWasValley = true
          ∧ now - s.lastPeakTime > MIN_STEP_PERIOD ∧ now - s.lastPeakTime < MAX_STEP_PERIOD
      · simp [detectStep, hg, hp, hv, hc.1, hc.2.1, hc.2.2.1, hc.2.2.2]
      · simp only [detectStep, if_neg hg, if_pos hp, if_neg hv]
        rw [if_neg (by tauto)]
        simp only [ne_eq, not_true_eq_false, false_iff]
        tauto
    · simp [detectStep, hg, hp]

theorem detectStep_emit_some {s : DetectorState} {dyn : ℚ} {now e : ℤ}
    (h : (detectStep s dyn now).2 = some e) :
    e = now ∧ (detectStep s dyn now).1.lastPeakTime = now := by
  by_cases hg : |dyn| < MIN_ACTIVITY_LEVEL
  · rw [detectStep_gated s now hg] at h; exact absurd h (by simp)
  · by_cases hp : isPeak s.prevPrevDyn s.prevDyn dyn (adaptiveThreshold (energyUpdate s.energy dyn))
    · have hv : ¬ isValley s.prevPrevDyn s.prevDyn dyn
          (adaptiveThreshold (energyUpdate s.energy dyn)) := isPeak_not_isValley hp
      by_cases hc : s.pendingPeak = true ∧ s.lastWasValley = true
          ∧ now - s.lastPeakTime > MIN_STEP_PERIOD ∧ now - s.lastPeakTime < MAX_STEP_PERIOD
      · simp only [detectStep, if_neg hg, if_pos hp, if_neg hv] at h ⊢
        rw [if_pos (by tauto)] at h ⊢
        simpa using h.symm
      · simp only [detectStep, if_neg hg, if_pos hp, if_neg hv] at h
        rw [if_neg (by tauto)] at h
        exact absurd h (by simp)
    · simp [detectStep, hg, hp] at h

/-- The ref `lastPeakTimeRef` is written only at a detected peak, and then to `now`. -/
theorem detectStep_lastPeakTime (s : DetectorState) (dyn : ℚ) (now : ℤ) :
    (detectStep s dyn now).1.lastPeakTime = s.lastPeakTime
    ∨ (detectStep s dyn now).1.lastPeakTime = now := by
  by_cases hg : |dyn| < MIN_ACTIVITY_LEVEL
  · rw [detectStep_gated s now hg]; exact Or.inl rfl
  · by_cases hp : isPeak s.prevPrevDyn s.prevDyn dyn (adaptiveThreshold (energyUpdate s.energy dyn))
    · have hv : ¬ isValley s.prevPrevDyn s.prevDyn dyn
          (adaptiveThreshold (energyUpdate s.energy dyn)) := isPeak_not_isValley hp
      simp only [detectStep, if_neg hg, if_pos hp, if_neg hv]
      split_ifs <;> simp
    · simp [detectStep, hg, hp]

theorem detectStep_emit_period {s : DetectorState} {dyn : ℚ} {now e : ℤ}
    (h : (detectStep s dyn now).2 = some e) :
    now - s.lastPeakTime > MIN_STEP_PERIOD ∧ now - s.lastPeakTime < MAX_STEP_PERIOD := by
  have := (detectStep_emit_iff s dyn now).mp (by rw [h]; simp)
  exact ⟨this.2.2.2.2.1, this.2.2.2.2.2⟩

/-- A peak detected on a non-gated sample always refreshes the last-peak timestamp. -/
theorem detectStep_peak_refreshes {s : DetectorState} {dyn : ℚ} (now : ℤ)
    (hg : ¬ |dyn| < MIN_ACTIVITY_LEVEL)
    (hp : isPeak s.prevPrevDyn s.prevDyn dyn (adaptiveThreshold (energyUpdate s.energy dyn))) :
    (detectStep s dyn now).1.lastPeakTime = now := by
  have hv : ¬ isValley s.prevPrevDyn s.prevDyn dyn
      (adaptiveThreshold (energyUpdate s.energy dyn)) := isPeak_not_isValley hp
  simp only [detectStep, if_neg hg, if_pos hp, if_neg hv]
  split_ifs <;> rfl

/-- The unconditional history shift of every non-gated call. -/
theorem detectStep_history {s : DetectorState} {dyn : ℚ} (now : ℤ)
    (hg : ¬ |dyn| < MIN_ACTIVITY_LEVEL) :
    (detectStep s dyn now).1.prevDyn = dyn
    ∧ (detectStep s dyn now).1.prevPrevDyn = s.prevDyn := by
  simp only [detectStep, if_neg hg]
  split_ifs <;> exact ⟨rfl, rfl⟩

/-! ### The signal conditioner of `processSample` (over `ℝ`)

The source's `processSample(x, y, z)` computes the raw magnitude, updates
the gravity low-pass filter and derives the dynamic magnitude `dyn`, which
it then hands to `detectStep`.  We embed this conditioner part over `ℝ`
(the detector is embedded separately above); `processSample` returns the
updated `gravityMagRef` together with the returned `dyn`. -/

/-- Gravity estimation coefficient, `ALPHA_GRAVITY = 0.9`. -/
noncomputable def ALPHA_GRAVITY : ℝ := 9/10

/-- Raw magnitude, `magRaw = Math.sqrt(x * x + y * y + z * z)`. -/
noncomputable def magRaw (x y z : ℝ) : ℝ := Real.sqrt (x * x + y * y + z * z)

/-- One `processSample` call: `(new gravityMagRef, dyn)`. -/
noncomputable def processSample (gravity x y z : ℝ) : ℝ × ℝ :=
  let mag := magRaw x y z
  let g := ALPHA_GRAVITY * gravity + (1 - ALPHA_GRAVITY) * mag
  (g, mag - g)

/-- Run the conditioner over a list of raw samples, collecting the emitted
dynamic magnitudes in order. -/
noncomputable def condRun (g : ℝ) : List (ℝ × ℝ × ℝ) → ℝ × List ℝ
  | [] => (g, [])
  | (x, y, z) :: rest =>
      let p := processSample g x y z
      let r := condRun p.1 rest
      (r.1, p.2 :: r.2)

/-- The gravity estimate after `n` samples all equal to `(v, 0, 0)`. -/
noncomputable def condIter (g0 v : ℝ) : ℕ → ℝ
  | 0 => g0
  | n + 1 => (processSample (condIter g0 v n) v 0 0).1

/-- The dynamic value returned for the `(n+1)`-st sample of the constant
stream `(v, 0, 0)`. -/
noncomputable def condOut (g0 v : ℝ) (n : ℕ) : ℝ :=
  (processSample (condIter g0 v n) v 0 0).2

theorem magRaw_const {v : ℝ} (hv : 0 ≤ v) : magRaw v 0 0 = v := by
  simp only [magRaw, mul_zero, add_zero]
  exact Real.sqrt_mul_self hv

/-- Closed form of the constant-input gravity recursion. -/
theorem condIter_sub (g0 : ℝ) {v : ℝ} (hv : 0 ≤ v) (n : ℕ) :
    condIter g0 v n - v = ALPHA_GRAVITY ^ n * (g0 - v) := by
  induction n with
  | zero => simp [condIter]
  | succ n ih =>
      have hstep : condIter g0 v (n + 1)
          = ALPHA_GRAVITY * condIter g0 v n + (1 - ALPHA_GRAVITY) * v := by
        simp [condIter, processSample, magRaw_const hv]
      have hiter : condIter g0 v n = ALPHA_GRAVITY ^ n * (g0 - v) + v := by linarith [ih]
      rw [hstep, hiter, pow_succ]
      ring

theorem condOut_closed (g0 : ℝ) {v : ℝ} (hv : 0 ≤ v) (n : ℕ) :
    condOut g0 v n = -(ALPHA_GRAVITY ^ (n + 1) * (g0 - v)) := by
  have h := condIter_sub g0 hv (n + 1)
  have hdef : condOut g0 v n = v - condIter g0 v (n + 1) := by
    simp only [condOut, condIter, processSample, magRaw_const hv]
  rw [hdef]
  linarith [h]

/-! ### JavaScript number semantics: `detectStep` over `Option ℚ`

`none` models NaN.  In JavaScript every arithmetic operation (including
`Math.abs` and `Math.max`) propagates NaN, and every `<`/`>` comparison
involving NaN evaluates to false.  `detectStepJS` is the same function as
`detectStep` above, written over this number type, to settle what the
source does on a non-finite sample. -/

/-- Absolute value `Math.abs`, propagating NaN. -/
def jAbs : Option ℚ → Option ℚ
  | some a => some |a|
  | none => none

/-- Addition, propagating NaN. -/
def jAdd : Option ℚ → Option ℚ → Option ℚ
  | some a, some b => some (a + b)
  | _, _ => none

/-- Multiplication, propagating NaN (no infinities arise in these runs). -/
def jMul : Option ℚ → Option ℚ → Option ℚ
  | some a, some b => some (a * b)
  | _, _ => none

/-- Division (used only with divisor 2), propagating NaN. -/
def jDiv : Option ℚ → Option ℚ → Option ℚ
  | some a, some b => some (a / b)
  | _, _ => none

/-- Negation, propagating NaN. -/
def jNeg : Option ℚ → Option ℚ
  | some a => some (-a)
  | none => none

/-- Comparison `<`: false whenever either side is NaN. -/
def jLt : Option ℚ → Option ℚ → Bool
  | some a, some b => decide (a < b)
  | _, _ => false

/-- Maximum `Math.max`: NaN if either argument is NaN. -/
def jMax : Option ℚ → Option ℚ → Option ℚ
  | some a, some b => some (max a b)
  | _, _ => none

/-- The refs of `StepScreen`, with NaN-able numeric fields. -/
structure DetectorStateJS where
  prevDyn : Option ℚ
  prevPrevDyn : Option ℚ
  lastPeakTime : ℤ
  pendingPeak : Bool
  lastWasValley : Bool
  energy : Option ℚ
  stepCount : ℕ
deriving DecidableEq, Repr

def initStateJS : DetectorStateJS :=
  { prevDyn := some 0, prevPrevDyn := some 0, lastPeakTime := 0,
    pendingPeak := false, lastWasValley := false, energy := some 0, stepCount := 0 }

/-- The function `detectStep` under JavaScript number semantics.  Note `a > b` in the
source is `jLt b a`: false when either side is NaN, exactly as in JS. -/
def detectStepJS (s : DetectorStateJS) (dyn : Option ℚ) (now : ℤ) :
    DetectorStateJS × Option ℤ :=
  if jLt (jAbs dyn) (some MIN_ACTIVITY_LEVEL) then
    (s, none)
  else
    let energy := jAdd (jMul (some ENERGY_ALPHA) s.energy)
      (jMul (some (1 - ENERGY_ALPHA)) (jAbs dyn))
    let thr := jMax (some MIN_PEAK_THRESHOLD) (jMul energy (some THRESHOLD_GAIN))
    let isV := jLt s.prevDyn s.prevPrevDyn && jLt s.prevDyn dyn
      && jLt s.prevDyn (jDiv (jNeg thr) (some 2))
    let lwv := isV || s.lastWasValley
    let isP := jLt s.prevPrevDyn s.prevDyn && jLt dyn s.prevDyn && jLt thr s.prevDyn
    if isP then
      let dt := now - s.lastPeakTime
      if s.pendingPeak && lwv && decide (dt > MIN_STEP_PERIOD) && decide (dt < MAX_STEP_PERIOD) then
        ({ prevDyn := dyn, prevPrevDyn := s.prevDyn, lastPeakTime := now,
           pendingPeak := false, lastWasValley := false, energy := energy,
           stepCount := s.stepCount + 1 }, some now)
      else
        ({ prevDyn := dyn, prevPrevDyn := s.prevDyn, lastPeakTime := now,
           pendingPeak := true, lastWasValley := lwv, energy := energy,
           stepCount := s.stepCount }, none)
    else
      ({ prevDyn := dyn, prevPrevDyn := s.prevDyn, lastPeakTime := s.lastPeakTime,
         pendingPeak := s.pendingPeak, lastWasValley := lwv, energy := energy,
         stepCount := s.stepCount }, none)

/-- Run the JS-semantics detector over `(dyn, timestamp)` samples. -/
def runJS (s : DetectorStateJS) : List (Option ℚ × ℤ) → DetectorStateJS × List ℤ
  | [] => (s, [])
  | (dyn, t) :: rest =>
      let p := detectStepJS s dyn t
      let r := runJS p.1 rest
      (r.1, p.2.toList ++ r.2)

theorem runJS_nil (s : DetectorStateJS) : runJS s [] = (s, []) := rfl

theorem runJS_cons {s s' : DetectorStateJS} {d : Option ℚ} {t : ℤ} {ev : Option ℤ}
    (rest : List (Option ℚ × ℤ)) (h : detectStepJS s d t = (s', ev)) :
    runJS s ((d, t) :: rest) =
      ((runJS s' rest).1, ev.toList ++ (runJS s' rest).2) := by
  simp only [runJS, h]

/-! ### Concrete runs of the detector

`cleanTrace` is a well-formed peak–valley–peak stream (peak at 10050,
valley, confirming peak at 10650, `dt = 600 ms` inside the window): it
yields exactly one step.  `valleyFirstTrace` has its only valley *before*
the pending peak at 10200 and only a shallow (never below `-thr/2`) dip
between the two peaks at 10200 and 10850.  The intermediate detector
states are spelled out and verified one call at a time. -/

def cleanTrace : List (ℚ × ℤ) :=
  [(1/2, 10000), (1/10, 10050), (-1/2, 10100), (1/10, 10150), (3/5, 10200), (1/10, 10650)]

def T1 : DetectorState :=
  { prevDyn := 1/2, prevPrevDyn := 0, lastPeakTime := 0,
    pendingPeak := false, lastWasValley := false, energy := 1/40, stepCount := 0 }

def T2 : DetectorState :=
  { prevDyn := 1/10, prevPrevDyn := 1/2, lastPeakTime := 10050,
    pendingPeak := true, lastWasValley := false, energy := 23/800, stepCount := 0 }

def T3 : DetectorState :=
  { prevDyn := -1/2, prevPrevDyn := 1/10, lastPeakTime := 10050,
    pendingPeak := true, lastWasValley := false, energy := 837/16000, stepCount := 0 }

def T4 : DetectorState :=
  { prevDyn := 1/10, prevPrevDyn := -1/2, lastPeakTime := 10050,
    pendingPeak := true, lastWasValley := true, energy := 17503/320000, stepCount := 0 }

def T5 : DetectorState :=
  { prevDyn := 3/5, prevPrevDyn := 1/10, lastPeakTime := 10050,
    pendingPeak := true, lastWasValley := true, energy := 524557/6400000, stepCount := 0 }

def T6 : DetectorState :=
  { prevDyn := 1/10, prevPrevDyn := 3/5, lastPeakTime := 10650,
    pendingPeak := false, lastWasValley := false, energy := 10606583/128000000,
    stepCount := 1 }

theorem dT1 : detectStep initState (1/2) 10000 = (T1, none) := by
  norm_num [detectStep, energyUpdate, adaptiveThreshold, isValley, isPeak, initState, T1,
    abs_of_nonneg, abs_of_nonpos, MIN_ACTIVITY_LEVEL, ENERGY_ALPHA, MIN_PEAK_THRESHOLD,
    THRESHOLD_GAIN, MIN_STEP_PERIOD, MAX_STEP_PERIOD]

theorem dT2 : detectStep T1 (1/10) 10050 = (T2, none) := by
  norm_num [detectStep, energyUpdate, adaptiveThreshold, isValley, isPeak, T1, T2,
    abs_of_nonneg, abs_of_nonpos, MIN_ACTIVITY_LEVEL, ENERGY_ALPHA, MIN_PEAK_THRESHOLD,
    THRESHOLD_GAIN, MIN_STEP_PERIOD, MAX_STEP_PERIOD]

theorem dT3 : detectStep T2 (-1/2) 10100 = (T3, none) := by
  norm_num [detectStep, energyUpdate, adaptiveThreshold, isValley, isPeak, T2, T3,
    abs_of_nonneg, abs_of_nonpos, MIN_ACTIVITY_LEVEL, ENERGY_ALPHA, MIN_PEAK_THRESHOLD,
    THRESHOLD_GAIN, MIN_STEP_PERIOD, MAX_STEP_PERIOD]

theorem dT4 : detectStep T3 (1/10) 10150 = (T4, none) := by
  norm_num [detectStep, energyUpdate, adaptiveThreshold, isValley, isPeak, T3, T4,
    abs_of_nonneg, abs_of_nonpos, MIN_ACTIVITY_LEVEL, ENERGY_ALPHA, MIN_PEAK_THRESHOLD,
    THRESHOLD_GAIN, MIN_STEP_PERIOD, MAX_STEP_PERIOD]

theorem dT5 : detectStep T4 (3/5) 10200 = (T5, none) := by
  norm_num [detectStep, energyUpdate, adaptiveThreshold, isValley, isPeak, T4, T5,
    abs_of_nonneg, abs_of_nonpos, MIN_ACTIVITY_LEVEL, ENERGY_ALPHA, MIN_PEAK_THRESHOLD,
    THRESHOLD_GAIN, MIN_STEP_PERIOD, MAX_STEP_PERIOD]

theorem dT6 : detectStep T5 (1/10) 10650 = (T6, some 10650) := by
  norm_num [detectStep, energyUpdate, adaptiveThreshold, isValley, isPeak, T5, T6,
    abs_of_nonneg, abs_of_nonpos, MIN_ACTIVITY_LEVEL, ENERGY_ALPHA, MIN_PEAK_THRESHOLD,
    THRESHOLD_GAIN, MIN_STEP_PERIOD, MAX_STEP_PERIOD]

theorem runDetector_cleanTrace : runDetector initState cleanTrace = (T6, [10650]) := by
  rw [cleanTrace, runDetector_cons _ dT1, runDetector_cons _ dT2, runDetector_cons _ dT3,
    runDetector_cons _ dT4, runDetector_cons _ dT5, runDetector_cons _ dT6, runDetector_nil]
  rfl

def valleyFirstTrace : List (ℚ × ℤ) :=
  [(1/10, 10000), (-1/2, 10050), (1/10, 10100), (3/5, 10150), (3/10, 10200),
   (1/2, 10250), (7/10, 10800), (1/10, 10850)]

def U1 : DetectorState :=
  { prevDyn := 1/10, prevPrevDyn := 0, lastPeakTime := 0,
    pendingPeak := false, lastWasValley := false, energy := 1/200, stepCount := 0 }

def U2 : DetectorState :=
  { prevDyn := -1/2, prevPrevDyn := 1/10, lastPeakTime := 0,
    pendingPeak := false, lastWasValley := false, energy := 119/4000, stepCount := 0 }

def U3 : DetectorState :=
  { prevDyn := 1/10, prevPrevDyn := -1/2, lastPeakTime := 0,
    pendingPeak := false, lastWasValley := true, energy := 2661/80000, stepCount := 0 }

def U4 : DetectorState :=
  { prevDyn := 3/5, prevPrevDyn := 1/10, lastPeakTime := 0,
    pendingPeak := false, lastWasValley := true, energy := 98559/1600000, stepCount := 0 }

def U5 : DetectorState :=
  { prevDyn := 3/10, prevPrevDyn := 3/5, lastPeakTime := 10200,
    pendingPeak := true, lastWasValley := true, energy := 2352621/32000000, stepCount := 0 }

def U6 : DetectorState :=
  { prevDyn := 1/2, prevPrevDyn := 3/10, lastPeakTime := 10200,
    pendingPeak := true, lastWasValley := true, energy := 60699799/640000000, stepCount := 0 }

def U7 : DetectorState :=
  { prevDyn := 7/10, prevPrevDyn := 1/2, lastPeakTime := 10200,
    pendingPeak := true, lastWasValley := true, energy := 1601296181/12800000000,
    stepCount := 0 }

def U8 : DetectorState :=
  { prevDyn := 1/10, prevPrevDyn := 7/10, lastPeakTime := 10850,
    pendingPeak := false, lastWasValley := false, energy := 31704627439/256000000000,
    stepCount := 1 }

theorem dU1 : detectStep initState (1/10) 10000 = (U1, none) := by
  norm_num [detectStep, energyUpdate, adaptiveThreshold, isValley, isPeak, initState, U1,
    abs_of_nonneg, abs_of_nonpos, MIN_ACTIVITY_LEVEL, ENERGY_ALPHA, MIN_PEAK_THRESHOLD,
    THRESHOLD_GAIN, MIN_STEP_PERIOD, MAX_STEP_PERIOD]

theorem dU2 : detectStep U1 (-1/2) 10050 = (U2, none) := by
  norm_num [detectStep, energyUpdate, adaptiveThreshold, isValley, isPeak, U1, U2,
    abs_of_nonneg, abs_of_nonpos, MIN_ACTIVITY_LEVEL, ENERGY_ALPHA, MIN_PEAK_THRESHOLD,
    THRESHOLD_GAIN, MIN_STEP_PERIOD, MAX_STEP_PERIOD]

theorem dU3 : detectStep U2 (1/10) 10100 = (U3, none) := by
  norm_num [detectStep, energyUpdate, adaptiveThreshold, isValley, isPeak, U2, U3,
    abs_of_nonneg, abs_of_nonpos, MIN_ACTIVITY_LEVEL, ENERGY_ALPHA, MIN_PEAK_THRESHOLD,
    THRESHOLD_GAIN, MIN_STEP_PERIOD, MAX_STEP_PERIOD]

theorem dU4 : detectStep U3 (3/5) 10150 = (U4, none) := by
  norm_num [detectStep, energyUpdate, adaptiveThreshold, isValley, isPeak, U3, U4,
    abs_of_nonneg, abs_of_nonpos, MIN_ACTIVITY_LEVEL, ENERGY_ALPHA, MIN_PEAK_THRESHOLD,
    THRESHOLD_GAIN, MIN_STEP_PERIOD, MAX_STEP_PERIOD]

theorem dU5 : detectStep U4 (3/10) 10200 = (U5, none) := by
  norm_num [detectStep, energyUpdate, adaptiveThreshold, isValley, isPeak, U4, U5,
    abs_of_nonneg, abs_of_nonpos, MIN_ACTIVITY_LEVEL, ENERGY_ALPHA, MIN_PEAK_THRESHOLD,
    THRESHOLD_GAIN, MIN_STEP_PERIOD, MAX_STEP_PERIOD]

theorem dU6 : detectStep U5 (1/2) 10250 = (U6, none) := by
  norm_num [detectStep, energyUpdate, adaptiveThreshold, isValley, isPeak, U5, U6,
    abs_of_nonneg, abs_of_nonpos, MIN_ACTIVITY_LEVEL, ENERGY_ALPHA, MIN_PEAK_THRESHOLD,
    THRESHOLD_GAIN, MIN_STEP_PERIOD, MAX_STEP_PERIOD]

theorem dU7 : detectStep U6 (7/10) 10800 = (U7, none) := by
  norm_num [detectStep, energyUpdate, adaptiveThreshold, isValley, isPeak, U6, U7,
    abs_of_nonneg, abs_of_nonpos, MIN_ACTIVITY_LEVEL, ENERGY_ALPHA, MIN_PEAK_THRESHOLD,
    THRESHOLD_GAIN, MIN_STEP_PERIOD, MAX_STEP_PERIOD]

theorem dU8 : detectStep U7 (1/10) 10850 = (U8, some 10850) := by
  norm_num [detectStep, energyUpdate, adaptiveThreshold, isValley, isPeak, U7, U8,
    abs_of_nonneg, abs_of_nonpos, MIN_ACTIVITY_LEVEL, ENERGY_ALPHA, MIN_PEAK_THRESHOLD,
    THRESHOLD_GAIN, MIN_STEP_PERIOD, MAX_STEP_PERIOD]

theorem runDetector_valleyFirst :
    runDetector initState valleyFirstTrace = (U8, [10850]) := by
  rw [valleyFirstTrace, runDetector_cons _ dU1, runDetector_cons _ dU2,
    runDetector_cons _ dU3, runDetector_cons _ dU4, runDetector_cons _ dU5,
    runDetector_cons _ dU6, runDetector_cons _ dU7, runDetector_cons _ dU8,
    runDetector_nil]
  rfl

/-! ### Concrete runs of the JS-semantics detector

`cleanTraceJS` is `cleanTrace` with finite JS numbers; `nanTrace` is the
same stream with a single NaN sample (`none`) in front. -/

def cleanTraceJS : List (Option ℚ × ℤ) :=
  [(some (1/2), 10000), (some (1/10), 10050), (some (-1/2), 10100),
   (some (1/10), 10150), (some (3/5), 10200), (some (1/10), 10650)]

def nanTrace : List (Option ℚ × ℤ) := (none, 9000) :: cleanTraceJS

def V1 : DetectorStateJS :=
  { prevDyn := some (1/2), prevPrevDyn := some 0, lastPeakTime := 0,
    pendingPeak := false, lastWasValley := false, energy := some (1/40), stepCount := 0 }

def V2 : DetectorStateJS :=
  { prevDyn := some (1/10), prevPrevDyn := some (1/2), lastPeakTime := 10050,
    pendingPeak := true, lastWasValley := false, energy := some (23/800), stepCount := 0 }

def V3 : DetectorStateJS :=
  { prevDyn := some (-1/2), prevPrevDyn := some (1/10), lastPeakTime := 10050,
    pendingPeak := true, lastWasValley := false, energy := some (837/16000), stepCount := 0 }

def V4 : DetectorStateJS :=
  { prevDyn := some (1/10), prevPrevDyn := some (-1/2), lastPeakTime := 10050,
    pendingPeak := true, lastWasValley := true, energy := some (17503/320000), stepCount := 0 }

def V5 : DetectorStateJS :=
  { prevDyn := some (3/5), prevPrevDyn := some (1/10), lastPeakTime := 10050,
    pendingPeak := true, lastWasValley := true, energy := some (524557/6400000),
    stepCount := 0 }

def V6 : DetectorStateJS :=
  { prevDyn := some (1/10), prevPrevDyn := some (3/5), lastPeakTime := 10650,
    pendingPeak := false, lastWasValley := false, energy := some (10606583/128000000),
    stepCount := 1 }

theorem dV1 : detectStepJS initStateJS (some (1/2)) 10000 = (V1, none) := by
  norm_num [detectStepJS, jAbs, jAdd, jMul, jDiv, jNeg, jLt, jMax, initStateJS, V1,
    abs_of_nonneg, abs_of_nonpos, MIN_ACTIVITY_LEVEL, ENERGY_ALPHA, MIN_PEAK_THRESHOLD,
    THRESHOLD_GAIN, MIN_STEP_PERIOD, MAX_STEP_PERIOD]

theorem dV2 : detectStepJS V1 (some (1/10)) 10050 = (V2, none) := by
  norm_num [detectStepJS, jAbs, jAdd, jMul, jDiv, jNeg, jLt, jMax, V1, V2,
    abs_of_nonneg, abs_of_nonpos, MIN_ACTIVITY_LEVEL, ENERGY_ALPHA, MIN_PEAK_THRESHOLD,
    THRESHOLD_GAIN, MIN_STEP_PERIOD, MAX_STEP_PERIOD]

theorem dV3 : detectStepJS V2 (some (-1/2)) 10100 = (V3, none) := by
  norm_num [detectStepJS, jAbs, jAdd, jMul, jDiv, jNeg, jLt, jMax, V2, V3,
    abs_of_nonneg, abs_of_nonpos, MIN_ACTIVITY_LEVEL, ENERGY_ALPHA, MIN_PEAK_THRESHOLD,
    THRESHOLD_GAIN, MIN_STEP_PERIOD, MAX_STEP_PERIOD]

theorem dV4 : detectStepJS V3 (some (1/10)) 10150 = (V4, none) := by
  norm_num [detectStepJS, jAbs, jAdd, jMul, jDiv, jNeg, jLt, jMax, V3, V4,
    abs_of_nonneg, abs_of_nonpos, MIN_ACTIVITY_LEVEL, ENERGY_ALPHA, MIN_PEAK_THRESHOLD,
    THRESHOLD_GAIN, MIN_STEP_PERIOD, MAX_STEP_PERIOD]

theorem dV5 : detectStepJS V4 (some (3/5)) 10200 = (V5, none) := by
  norm_num [detectStepJS, jAbs, jAdd, jMul, jDiv, jNeg, jLt, jMax, V4, V5,
    abs_of_nonneg, abs_of_nonpos, MIN_ACTIVITY_LEVEL, ENERGY_ALPHA, MIN_PEAK_THRESHOLD,
    THRESHOLD_GAIN, MIN_STEP_PERIOD, MAX_STEP_PERIOD]

theorem dV6 : detectStepJS V5 (some (1/10)) 10650 = (V6, some 10650) := by
  norm_num [detectStepJS, jAbs, jAdd, jMul, jDiv, jNeg, jLt, jMax, V5, V6,
    abs_of_nonneg, abs_of_nonpos, MIN_ACTIVITY_LEVEL, ENERGY_ALPHA, MIN_PEAK_THRESHOLD,
    THRESHOLD_GAIN, MIN_STEP_PERIOD, MAX_STEP_PERIOD]

theorem runJS_cleanTrace : runJS initStateJS cleanTraceJS = (V6, [10650]) := by
  rw [cleanTraceJS, runJS_cons _ dV1, runJS_cons _ dV2, runJS_cons _ dV3,
    runJS_cons _ dV4, runJS_cons _ dV5, runJS_cons _ dV6, runJS_nil]
  rfl

def W1 : DetectorStateJS :=
  { prevDyn := none, prevPrevDyn := some 0, lastPeakTime := 0,
    pendingPeak := false, lastWasValley := false, energy := none, stepCount := 0 }

def W2 : DetectorStateJS :=
  { prevDyn := some (1/2), prevPrevDyn := none, lastPeakTime := 0,
    pendingPeak := false, lastWasValley := false, energy := none, stepCount := 0 }

def W3 : DetectorStateJS :=
  { prevDyn := some (1/10), prevPrevDyn := some (1/2), lastPeakTime := 0,
    pendingPeak := false, lastWasValley := false, energy := none, stepCount := 0 }

def W4 : DetectorStateJS :=
  { prevDyn := some (-1/2), prevPrevDyn := some (1/10), lastPeakTime := 0,
    pendingPeak := false, lastWasValley := false, energy := none, stepCount := 0 }

def W5 : DetectorStateJS :=
  { prevDyn := some (1/10), prevPrevDyn := some (-1/2), lastPeakTime := 0,
    pendingPeak := false, lastWasValley := false, energy := none, stepCount := 0 }

def W6 : DetectorStateJS :=
  { prevDyn := some (3/5), prevPrevDyn := some (1/10), lastPeakTime := 0,
    pendingPeak := false, lastWasValley := false, energy := none, stepCount := 0 }

def W7 : DetectorStateJS :=
  { prevDyn := some (1/10), prevPrevDyn := some (3/5), lastPeakTime := 0,
    pendingPeak := false, lastWasValley := false, energy := none, stepCount := 0 }

theorem dW1 : detectStepJS initStateJS none 9000 = (W1, none) := by
  norm_num [detectStepJS, jAbs, jAdd, jMul, jDiv, jNeg, jLt, jMax, initStateJS, W1,
    abs_of_nonneg, abs_of_nonpos, MIN_ACTIVITY_LEVEL, ENERGY_ALPHA, MIN_PEAK_THRESHOLD,
    THRESHOLD_GAIN, MIN_STEP_PERIOD, MAX_STEP_PERIOD]

theorem dW2 : detectStepJS W1 (some (1/2)) 10000 = (W2, none) := by
  norm_num [detectStepJS, jAbs, jAdd, jMul, jDiv, jNeg, jLt, jMax, W1, W2,
    abs_of_nonneg, abs_of_nonpos, MIN_ACTIVITY_LEVEL, ENERGY_ALPHA, MIN_PEAK_THRESHOLD,
    THRESHOLD_GAIN, MIN_STEP_PERIOD, MAX_STEP_PERIOD]

theorem dW3 : detectStepJS W2 (some (1/10)) 10050 = (W3, none) := by
  norm_num [detectStepJS, jAbs, jAdd, jMul, jDiv, jNeg, jLt, jMax, W2, W3,
    abs_of_nonneg, abs_of_nonpos, MIN_ACTIVITY_LEVEL, ENERGY_ALPHA, MIN_PEAK_THRESHOLD,
    THRESHOLD_GAIN, MIN_STEP_PERIOD, MAX_STEP_PERIOD]

theorem dW4 : detectStepJS W3 (some (-1/2)) 10100 = (W4, none) := by
  norm_num [detectStepJS, jAbs, jAdd, jMul, jDiv, jNeg, jLt, jMax, W3, W4,
    abs_of_nonneg, abs_of_nonpos, MIN_ACTIVITY_LEVEL, ENERGY_ALPHA, MIN_PEAK_THRESHOLD,
    THRESHOLD_GAIN, MIN_STEP_PERIOD, MAX_STEP_PERIOD]

theorem dW5 : detectStepJS W4 (some (1/10)) 10150 = (W5, none) := by
  norm_num [detectStepJS, jAbs, jAdd, jMul, jDiv, jNeg, jLt, jMax, W4, W5,
    abs_of_nonneg, abs_of_nonpos, MIN_ACTIVITY_LEVEL, ENERGY_ALPHA, MIN_PEAK_THRESHOLD,
    THRESHOLD_GAIN, MIN_STEP_PERIOD, MAX_STEP_PERIOD]

theorem dW6 : detectStepJS W5 (some (3/5)) 10200 = (W6, none) := by
  norm_num [detectStepJS, jAbs, jAdd, jMul, jDiv, jNeg, jLt, jMax, W5, W6,
    abs_of_nonneg, abs_of_nonpos, MIN_ACTIVITY_LEVEL, ENERGY_ALPHA, MIN_PEAK_THRESHOLD,
    THRESHOLD_GAIN, MIN_STEP_PERIOD, MAX_STEP_PERIOD]

theorem dW7 : detectStepJS W6 (some (1/10)) 10650 = (W7, none) := by
  norm_num [detectStepJS, jAbs, jAdd, jMul, jDiv, jNeg, jLt, jMax, W6, W7,
    abs_of_nonneg, abs_of_nonpos, MIN_ACTIVITY_LEVEL, ENERGY_ALPHA, MIN_PEAK_THRESHOLD,
    THRESHOLD_GAIN, MIN_STEP_PERIOD, MAX_STEP_PERIOD]

theorem runJS_nanTrace : runJS initStateJS nanTrace = (W7, []) := by
  rw [nanTrace, cleanTraceJS, runJS_cons _ dW1, runJS_cons _ dW2, runJS_cons _ dW3,
    runJS_cons _ dW4, runJS_cons _ dW5, runJS_cons _ dW6, runJS_cons _ dW7, runJS_nil]
  rfl

end StepScreen

namespace RideScreen

/-! ### The hysteresis variant of `src/app/(tabs)/RideScreen.tsx`

Its `processSample` (gravity LPF, step-band LPF, dead-zone gate) feeds the
gated signal into `detectStep(value)`; the claims concern `detectStep`
and the two thresholds, so we embed `detectStep` over the gated signal
directly.  Note the configured values: the constant named HIGH (0.06, the
rise threshold) is numerically *below* the one named LOW (0.12, the
re-arm threshold). -/

def STEP_THRESHOLD_HIGH : ℚ := 6/100

def STEP_THRESHOLD_LOW : ℚ := 12/100

def MIN_STEP_INTERVAL : ℤ := 350

/-- The refs of `RideScreen` read and written by `detectStep`. -/
structure RideState where
  lastStepTime : ℤ
  aboveThreshold : Bool
  stepCount : ℕ
deriving DecidableEq, Repr

def initRide : RideState :=
  { lastStepTime := 0, aboveThreshold := false, stepCount := 0 }

/-- One `detectStep(value)` call at time `now`: the rising-edge block runs
first, then the falling-edge (re-arm) block reads the updated flag. -/
def detectStep (s : RideState) (value : ℚ) (now : ℤ) : RideState :=
  let s1 :=
    if s.aboveThreshold = false ∧ value > STEP_THRESHOLD_HIGH
        ∧ now - s.lastStepTime > MIN_STEP_INTERVAL then
      { lastStepTime := now, aboveThreshold := true, stepCount := s.stepCount + 1 }
    else s
  if s1.aboveThreshold = true ∧ value < STEP_THRESHOLD_LOW then
    { s1 with aboveThreshold := false }
  else s1

/-- Run the hysteresis detector over a list of `(gatedSignal, timestamp)`
samples. -/
def runRide (s : RideState) : List (ℚ × ℤ) → RideState
  | [] => s
  | (v, t) :: rest => runRide (detectStep s v t) rest

end RideScreen

/-! ## Claim theorems -/

open StepScreen

/-- Claim C4: For every finite input (x, y, z), one call of the Conditioner's
process computes `mag = sqrt(x² + y² + z²)`, replaces the gravity estimate
by `α_g · gravity + (1 − α_g) · mag` with `α_g = 0.9`, and returns `mag`
minus the updated gravity estimate. -/
theorem c4_conditioner_process (g x y z : ℝ) :
    processSample g x y z =
      (ALPHA_GRAVITY * g + (1 - ALPHA_GRAVITY) * Real.sqrt (x^2 + y^2 + z^2),
       Real.sqrt (x^2 + y^2 + z^2)
         - (ALPHA_GRAVITY * g + (1 - ALPHA_GRAVITY) * Real.sqrt (x^2 + y^2 + z^2)))
    ∧ ALPHA_GRAVITY = 9/10 := by
  have hsq : x * x + y * y + z * z = x^2 + y^2 + z^2 := by ring
  exact ⟨by simp only [processSample, magRaw, hsq], rfl⟩

/-- Claim C6: A scalar below the activity gate produces no event and leaves every
field of the detector state unchanged. -/
theorem c6_gate_no_effect (s : DetectorState) (dyn : ℚ) (now : ℤ)
    (h : |dyn| < MIN_ACTIVITY_LEVEL) :
    detectStep s dyn now = (s, none) :=
  detectStep_gated s now h

theorem c6_gate_no_effect_witness :
    |(1/100 : ℚ)| < MIN_ACTIVITY_LEVEL
    ∧ detectStep initState (1/100) 99999 = (initState, none) :=
  ⟨by norm_num [MIN_ACTIVITY_LEVEL, abs_of_nonneg],
   c6_gate_no_effect initState (1/100) 99999 (by norm_num [MIN_ACTIVITY_LEVEL, abs_of_nonneg])⟩

/-- Claim C5 (counterexample to the claim as stated): after feeding the two
scalars 1 and 0.01, the history does **not** hold the last two scalars fed
in — the second sample is below the activity gate, so the history still
holds 1, not 0.01. -/
theorem c5_counterexample :
    (runDetector initState [(1, 0), (1/100, 50)]).1.prevDyn = 1
    ∧ (runDetector initState [(1, 0), (1/100, 50)]).1.prevDyn ≠ 1/100 := by
  have h1 : detectStep initState 1 0 =
      ({ prevDyn := 1, prevPrevDyn := 0, lastPeakTime := 0, pendingPeak := false,
         lastWasValley := false, energy := 1/20, stepCount := 0 }, none) := by
    norm_num [detectStep, energyUpdate, adaptiveThreshold, isValley, isPeak, initState,
      abs_of_nonneg, MIN_ACTIVITY_LEVEL, ENERGY_ALPHA, MIN_PEAK_THRESHOLD, THRESHOLD_GAIN]
  have h2 : detectStep
      { prevDyn := 1, prevPrevDyn := 0, lastPeakTime := 0, pendingPeak := false,
        lastWasValley := false, energy := 1/20, stepCount := 0 } (1/100) 50 =
      ({ prevDyn := 1, prevPrevDyn := 0, lastPeakTime := 0, pendingPeak := false,
         lastWasValley := false, energy := 1/20, stepCount := 0 }, none) :=
    detectStep_gated _ 50 (by norm_num [MIN_ACTIVITY_LEVEL, abs_of_nonneg])
  rw [runDetector_cons _ h1, runDetector_cons _ h2, runDetector_nil]
  exact ⟨rfl, by norm_num⟩

/-- Claim C5 (amended): after each **non-gated** call the history holds the
current scalar and the previously retained one, in order; a gated call
leaves the whole state unchanged. -/
theorem c5_amended (s : DetectorState) (dyn : ℚ) (now : ℤ) :
    (¬ |dyn| < MIN_ACTIVITY_LEVEL →
      (detectStep s dyn now).1.prevDyn = dyn
      ∧ (detectStep s dyn now).1.prevPrevDyn = s.prevDyn)
    ∧ (|dyn| < MIN_ACTIVITY_LEVEL → (detectStep s dyn now).1 = s) :=
  ⟨fun hg => detectStep_history now hg,
   fun hg => by rw [detectStep_gated s now hg]⟩

theorem c5_amended_witness :
    (detectStep initState 1 7).1.prevDyn = 1
    ∧ (detectStep initState 1 7).1.prevPrevDyn = initState.prevDyn
    ∧ (detectStep initState (1/100) 7).1 = initState :=
  ⟨((c5_amended initState 1 7).1 (by norm_num [MIN_ACTIVITY_LEVEL])).1,
   ((c5_amended initState 1 7).1 (by norm_num [MIN_ACTIVITY_LEVEL])).2,
   (c5_amended initState (1/100) 7).2 (by norm_num [MIN_ACTIVITY_LEVEL, abs_of_nonneg])⟩

/-- Claim C7: Feeding the Conditioner a constant magnitude `g` repeatedly makes
its dynamic output converge to 0, for every starting gravity estimate:
the deviation decays geometrically as `α_g^t · (g − g₀)`. -/
theorem c7_gravity_convergence (g0 g ε : ℝ) (hg : 0 ≤ g) (hε : 0 < ε) :
    ∃ N : ℕ, ∀ n ≥ N, |condOut g0 g n| < ε := by
  have hden : (0:ℝ) < |g0 - g| + 1 := by positivity
  have h1 : 0 < ε / (|g0 - g| + 1) := div_pos hε hden
  have h2 : ALPHA_GRAVITY < 1 := by norm_num [ALPHA_GRAVITY]
  have h0 : (0:ℝ) ≤ ALPHA_GRAVITY := by norm_num [ALPHA_GRAVITY]
  obtain ⟨N, hN⟩ := exists_pow_lt_of_lt_one h1 h2
  refine ⟨N, fun n hn => ?_⟩
  rw [condOut_closed g0 hg n, abs_neg, abs_mul, abs_pow, abs_of_nonneg h0]
  have hpow : ALPHA_GRAVITY ^ (n + 1) ≤ ALPHA_GRAVITY ^ N :=
    pow_le_pow_of_le_one h0 h2.le (by omega)
  have hstep : ALPHA_GRAVITY ^ (n + 1) * |g0 - g| ≤ ALPHA_GRAVITY ^ N * (|g0 - g| + 1) :=
    mul_le_mul hpow (by linarith [abs_nonneg (g0 - g)]) (abs_nonneg _) (pow_nonneg h0 _)
  have hfin : ALPHA_GRAVITY ^ N * (|g0 - g| + 1) < ε := (lt_div_iff₀ hden).mp hN
  linarith

theorem c7_gravity_convergence_witness :
    (0:ℝ) ≤ 9 ∧ (0:ℝ) < 1 ∧ ∃ N : ℕ, ∀ n ≥ N, |condOut 2 9 n| < 1 :=
  ⟨by norm_num, by norm_num, c7_gravity_convergence 2 9 1 (by norm_num) (by norm_num)⟩

/-- Claim C9: Two input sequences agreeing sample-by-sample on the Euclidean
magnitude produce identical conditioner output sequences (and final
gravity state) from the same starting state. -/
theorem c9_orientation_independence (g : ℝ) (l1 l2 : List (ℝ × ℝ × ℝ))
    (h : l1.map (fun v => magRaw v.1 v.2.1 v.2.2) = l2.map (fun v => magRaw v.1 v.2.1 v.2.2)) :
    condRun g l1 = condRun g l2 := by
  induction l1 generalizing g l2 with
  | nil =>
      cases l2 with
      | nil => rfl
      | cons w t2 => simp at h
  | cons v t1 ih =>
      obtain ⟨vx, vy, vz⟩ := v
      cases l2 with
      | nil => simp at h
      | cons w t2 =>
          obtain ⟨wx, wy, wz⟩ := w
          simp only [List.map_cons, List.cons.injEq] at h
          have hp : processSample g vx vy vz = processSample g wx wy wz := by
            simp only [processSample]
            rw [h.1]
          simp only [condRun]
          rw [hp, ih _ _ h.2]

theorem c9_orientation_independence_witness :
    ([((1:ℝ), (2:ℝ), (2:ℝ))].map (fun v => magRaw v.1 v.2.1 v.2.2)
      = [((2:ℝ), (2:ℝ), (1:ℝ))].map (fun v => magRaw v.1 v.2.1 v.2.2))
    ∧ condRun 0 [((1:ℝ), (2:ℝ), (2:ℝ))] = condRun 0 [((2:ℝ), (2:ℝ), (1:ℝ))] := by
  have h : ([((1:ℝ), (2:ℝ), (2:ℝ))].map (fun v => magRaw v.1 v.2.1 v.2.2)
      = [((2:ℝ), (2:ℝ), (1:ℝ))].map (fun v => magRaw v.1 v.2.1 v.2.2)) := by
    simp only [List.map_cons, List.map_nil, magRaw]
    norm_num
  exact ⟨h, c9_orientation_independence 0 _ _ h⟩

/-- Claim C1 (code evaluated at the failing input): the stream `cleanTraceJS`
produces one StepEvent, but the same stream preceded by a single NaN sample
produces none — the NaN is not discarded: it passes the activity gate
(`|NaN| < 0.03` is false in JS), is folded into the energy filter
(mutating the state), and the poisoned (NaN) energy estimate then keeps
every later peak test false, so the step the valid samples would have
produced never appears. -/
theorem c1_nan_poisons_detector :
    (runJS initStateJS cleanTraceJS).2 = [10650]
    ∧ (runJS initStateJS nanTrace).2 = []
    ∧ (detectStepJS initStateJS none 9000).1.energy = none
    ∧ (detectStepJS initStateJS none 9000).1 ≠ initStateJS
    ∧ (runJS initStateJS nanTrace).1.energy = none := by
  refine ⟨by rw [runJS_cleanTrace], by rw [runJS_nanTrace], by rw [dW1]; rfl, ?_,
    by rw [runJS_nanTrace]; rfl⟩
  rw [dW1]
  simp [W1, initStateJS]

/-- Claim C2 (counterexample to the claim as stated): on `valleyFirstTrace` a
StepEvent is emitted at 10850, yet no valley occurred between the pending
peak (detected at 10200, entering state `U5`) and the confirming peak at
10850: the only valley was flagged *before* any peak candidate existed
(state `U4` already has the flag with no pending peak), and none of the
three calls between the two peaks satisfies the valley condition. -/
theorem c2_counterexample :
    (runDetector initState valleyFirstTrace).2 = [10850]
    ∧ (runDetector initState (valleyFirstTrace.take 4)).1 = U4
    ∧ U4.pendingPeak = false ∧ U4.lastWasValley = true
    ∧ (runDetector initState (valleyFirstTrace.take 5)).1 = U5
    ∧ U5.pendingPeak = true ∧ U5.lastPeakTime = 10200
    ∧ (runDetector initState (valleyFirstTrace.take 6)).1 = U6
    ∧ (runDetector initState (valleyFirstTrace.take 7)).1 = U7
    ∧ ¬ isValley U5.prevPrevDyn U5.prevDyn (1/2) (adaptiveThreshold (energyUpdate U5.energy (1/2)))
    ∧ ¬ isValley U6.prevPrevDyn U6.prevDyn (7/10) (adaptiveThreshold (energyUpdate U6.energy (7/10)))
    ∧ ¬ isValley U7.prevPrevDyn U7.prevDyn (1/10) (adaptiveThreshold (energyUpdate U7.energy (1/10))) := by
  have ht4 : valleyFirstTrace.take 4
      = [(1/10, 10000), (-1/2, 10050), (1/10, 10100), (3/5, 10150)] := rfl
  have ht5 : valleyFirstTrace.take 5
      = [(1/10, 10000), (-1/2, 10050), (1/10, 10100), (3/5, 10150), (3/10, 10200)] := rfl
  have ht6 : valleyFirstTrace.take 6
      = [(1/10, 10000), (-1/2, 10050), (1/10, 10100), (3/5, 10150), (3/10, 10200),
         (1/2, 10250)] := rfl
  have ht7 : valleyFirstTrace.take 7
      = [(1/10, 10000), (-1/2, 10050), (1/10, 10100), (3/5, 10150), (3/10, 10200),
         (1/2, 10250), (7/10, 10800)] := rfl
  refine ⟨by rw [runDetector_valleyFirst],
    ?_, rfl, rfl, ?_, rfl, rfl, ?_, ?_, ?_, ?_, ?_⟩
  · rw [ht4, runDetector_cons _ dU1, runDetector_cons _ dU2, runDetector_cons _ dU3,
      runDetector_cons _ dU4, runDetector_nil]
  · rw [ht5, runDetector_cons _ dU1, runDetector_cons _ dU2, runDetector_cons _ dU3,
      runDetector_cons _ dU4, runDetector_cons _ dU5, runDetector_nil]
  · rw [ht6, runDetector_cons _ dU1, runDetector_cons _ dU2, runDetector_cons _ dU3,
      runDetector_cons _ dU4, runDetector_cons _ dU5, runDetector_cons _ dU6, runDetector_nil]
  · rw [ht7, runDetector_cons _ dU1, runDetector_cons _ dU2, runDetector_cons _ dU3,
      runDetector_cons _ dU4, runDetector_cons _ dU5, runDetector_cons _ dU6,
      runDetector_cons _ dU7, runDetector_nil]
  · norm_num [isValley, U5, adaptiveThreshold, energyUpdate, ENERGY_ALPHA,
      MIN_PEAK_THRESHOLD, THRESHOLD_GAIN, abs_of_nonneg]
  · norm_num [isValley, U6, adaptiveThreshold, energyUpdate, ENERGY_ALPHA,
      MIN_PEAK_THRESHOLD, THRESHOLD_GAIN, abs_of_nonneg]
  · norm_num [isValley, U7, adaptiveThreshold, energyUpdate, ENERGY_ALPHA,
      MIN_PEAK_THRESHOLD, THRESHOLD_GAIN, abs_of_nonneg]

/-- Claim C2 (amended): a StepEvent is emitted exactly when a non-gated sample
confirms a peak while a peak candidate is pending, the valley flag is set
(a valley occurred at some time since the last confirmed step — not
necessarily between the pending and the confirming peak), and the
inter-peak time lies strictly inside (500, 1000) ms; a detected peak that
does not confirm becomes the new pending candidate with a refreshed
last-peak time, and no event is ever emitted from a lone peak. -/
theorem c2_amended (s : DetectorState) (dyn : ℚ) (now : ℤ) :
    ((detectStep s dyn now).2 ≠ none ↔
      ¬ |dyn| < MIN_ACTIVITY_LEVEL
      ∧ isPeak s.prevPrevDyn s.prevDyn dyn (adaptiveThreshold (energyUpdate s.energy dyn))
      ∧ s.pendingPeak = true ∧ s.lastWasValley = true
      ∧ now - s.lastPeakTime > MIN_STEP_PERIOD ∧ now - s.lastPeakTime < MAX_STEP_PERIOD)
    ∧ (¬ |dyn| < MIN_ACTIVITY_LEVEL →
        isPeak s.prevPrevDyn s.prevDyn dyn (adaptiveThreshold (energyUpdate s.energy dyn)) →
        (detectStep s dyn now).2 = none →
        (detectStep s dyn now).1.pendingPeak = true
        ∧ (detectStep s dyn now).1.lastPeakTime = now) := by
  refine ⟨detectStep_emit_iff s dyn now, fun hg hp hemit => ?_⟩
  have hv : ¬ isValley s.prevPrevDyn s.prevDyn dyn
      (adaptiveThreshold (energyUpdate s.energy dyn)) := isPeak_not_isValley hp
  by_cases hc : s.pendingPeak = true ∧ s.lastWasValley = true
      ∧ now - s.lastPeakTime > MIN_STEP_PERIOD ∧ now - s.lastPeakTime < MAX_STEP_PERIOD
  · exfalso
    simp only [detectStep, if_neg hg, if_pos hp, if_neg hv] at hemit
    rw [if_pos (by tauto)] at hemit
    exact absurd hemit (by simp)
  · simp only [detectStep, if_neg hg, if_pos hp, if_neg hv]
    rw [if_neg (by tauto)]
    exact ⟨rfl, rfl⟩

theorem c2_amended_witness :
    (detectStep U7 (1/10) 10850).2 ≠ none
    ∧ (detectStep U4 (3/10) 10200).1.pendingPeak = true
    ∧ (detectStep U4 (3/10) 10200).1.lastPeakTime = 10200 := by
  refine ⟨(c2_amended U7 (1/10) 10850).1.mpr
      ⟨by norm_num [MIN_ACTIVITY_LEVEL, abs_of_nonneg],
       by norm_num [isPeak, U7, adaptiveThreshold, energyUpdate, ENERGY_ALPHA,
         MIN_PEAK_THRESHOLD, THRESHOLD_GAIN, abs_of_nonneg],
       rfl, rfl, by norm_num [U7, MIN_STEP_PERIOD], by norm_num [U7, MAX_STEP_PERIOD]⟩,
    ?_, ?_⟩
  · exact ((c2_amended U4 (3/10) 10200).2
      (by norm_num [MIN_ACTIVITY_LEVEL, abs_of_nonneg])
      (by norm_num [isPeak, U4, adaptiveThreshold, energyUpdate, ENERGY_ALPHA,
        MIN_PEAK_THRESHOLD, THRESHOLD_GAIN, abs_of_nonneg])
      (by rw [dU5])).1
  · exact ((c2_amended U4 (3/10) 10200).2
      (by norm_num [MIN_ACTIVITY_LEVEL, abs_of_nonneg])
      (by norm_num [isPeak, U4, adaptiveThreshold, energyUpdate, ENERGY_ALPHA,
        MIN_PEAK_THRESHOLD, THRESHOLD_GAIN, abs_of_nonneg])
      (by rw [dU5])).2

/-- Claim C3 (code evaluated at the failing input): the gated value 0.08 lies
between the rise threshold (the constant named HIGH, 0.06) and the re-arm
threshold (the constant named LOW, 0.12, which is numerically the
*higher* of the two).  One call at t=1000 counts a step and, in the same
call, re-arms (`aboveThreshold` back to false, since 0.08 < 0.12), so a
second call at t=1400 counts again — two steps are counted although the
gated signal never fell below the lower of the two configured thresholds
(0.06). -/
theorem c3_hysteresis_bug_eval :
    RideScreen.STEP_THRESHOLD_HIGH < RideScreen.STEP_THRESHOLD_LOW
    ∧ RideScreen.STEP_THRESHOLD_HIGH < 2/25 ∧ (2/25 : ℚ) < RideScreen.STEP_THRESHOLD_LOW
    ∧ RideScreen.detectStep RideScreen.initRide (2/25) 1000 =
        { lastStepTime := 1000, aboveThreshold := false, stepCount := 1 }
    ∧ RideScreen.runRide RideScreen.initRide [(2/25, 1000), (2/25, 1400)] =
        { lastStepTime := 1400, aboveThreshold := false, stepCount := 2 } := by
  refine ⟨by norm_num [RideScreen.STEP_THRESHOLD_HIGH, RideScreen.STEP_THRESHOLD_LOW],
    by norm_num [RideScreen.STEP_THRESHOLD_HIGH],
    by norm_num [RideScreen.STEP_THRESHOLD_LOW], ?_, ?_⟩
  · norm_num [RideScreen.detectStep, RideScreen.initRide, RideScreen.STEP_THRESHOLD_HIGH,
      RideScreen.STEP_THRESHOLD_LOW, RideScreen.MIN_STEP_INTERVAL]
  · norm_num [RideScreen.runRide, RideScreen.detectStep, RideScreen.initRide,
      RideScreen.STEP_THRESHOLD_HIGH, RideScreen.STEP_THRESHOLD_LOW,
      RideScreen.MIN_STEP_INTERVAL]

/-! ### Spec-side definitions for C8, written from the spec's words -/

/-- Per the spec: the energy estimate is updated by an exponential filter
over `|dyn|` (decay 0.95) and the working peak threshold is
`max(minPeakThreshold, energy × thresholdGain)` with floor 0.2, gain 1.5. -/
def specThreshold (energy dyn : ℚ) : ℚ :=
  max (2/10) ((95/100 * energy + 5/100 * |dyn|) * (15/10))

/-- Per the spec: a valley is flagged when the middle point `prev` of the
three most recent scalars is a local minimum below `−threshold/2`. -/
def specIsValley (prevPrev prev dyn thr : ℚ) : Prop :=
  prev < prevPrev ∧ prev < dyn ∧ prev < -(thr / 2)

/-- Per the spec: a peak is flagged when the middle point `prev` is a
local maximum above `+threshold`. -/
def specIsPeak (prevPrev prev dyn thr : ℚ) : Prop :=
  prev > prevPrev ∧ prev > dyn ∧ prev > thr

theorem isValley_not_isPeak {ppp p d thr thr' : ℚ} (h : isValley ppp p d thr) :
    ¬ isPeak ppp p d thr' :=
  fun hp => absurd hp.1 (not_lt.mpr h.1.le)

/-- Claim C8: on every non-gated sample the code's threshold equals the spec's
`max(0.2, updatedEnergy × 1.5)`, its valley/peak tests are exactly the
spec's middle-point conditions, a valley sets the valley flag, and a
sample that is neither valley nor peak leaves both flags unchanged and
emits nothing. -/
theorem c8_extremum_conditions (s : DetectorState) (dyn : ℚ) (now : ℤ)
    (hg : ¬ |dyn| < MIN_ACTIVITY_LEVEL) :
    adaptiveThreshold (energyUpdate s.energy dyn) = specThreshold s.energy dyn
    ∧ (isValley s.prevPrevDyn s.prevDyn dyn (specThreshold s.energy dyn) ↔
        specIsValley s.prevPrevDyn s.prevDyn dyn (specThreshold s.energy dyn))
    ∧ (isPeak s.prevPrevDyn s.prevDyn dyn (specThreshold s.energy dyn) ↔
        specIsPeak s.prevPrevDyn s.prevDyn dyn (specThreshold s.energy dyn))
    ∧ (specIsValley s.prevPrevDyn s.prevDyn dyn (specThreshold s.energy dyn) →
        (detectStep s dyn now).1.lastWasValley = true)
    ∧ (¬ specIsValley s.prevPrevDyn s.prevDyn dyn (specThreshold s.energy dyn) →
        ¬ specIsPeak s.prevPrevDyn s.prevDyn dyn (specThreshold s.energy dyn) →
        (detectStep s dyn now).1.lastWasValley = s.lastWasValley
        ∧ (detectStep s dyn now).1.pendingPeak = s.pendingPeak
        ∧ (detectStep s dyn now).2 = none) := by
  have hthr : adaptiveThreshold (energyUpdate s.energy dyn) = specThreshold s.energy dyn := by
    norm_num [adaptiveThreshold, energyUpdate, specThreshold, ENERGY_ALPHA,
      MIN_PEAK_THRESHOLD, THRESHOLD_GAIN]
  have hviff : ∀ t : ℚ, isValley s.prevPrevDyn s.prevDyn dyn t ↔
      specIsValley s.prevPrevDyn s.prevDyn dyn t := by
    intro t
    simp [isValley, specIsValley, neg_div]
  have hpiff : ∀ t : ℚ, isPeak s.prevPrevDyn s.prevDyn dyn t ↔
      specIsPeak s.prevPrevDyn s.prevDyn dyn t := by
    intro t
    simp [isPeak, specIsPeak]
  refine ⟨hthr, hviff _, hpiff _, fun hsv => ?_, fun hnv hnp => ?_⟩
  · have hv : isValley s.prevPrevDyn s.prevDyn dyn
        (adaptiveThreshold (energyUpdate s.energy dyn)) := by
      rw [hthr]; exact (hviff _).mpr hsv
    have hp : ¬ isPeak s.prevPrevDyn s.prevDyn dyn
        (adaptiveThreshold (energyUpdate s.energy dyn)) := isValley_not_isPeak hv
    simp [detectStep, if_neg hg, if_pos hv, if_neg hp]
  · have hv : ¬ isValley s.prevPrevDyn s.prevDyn dyn
        (adaptiveThreshold (energyUpdate s.energy dyn)) := by
      rw [hthr]; exact fun hx => hnv ((hviff _).mp hx)
    have hp : ¬ isPeak s.prevPrevDyn s.prevDyn dyn
        (adaptiveThreshold (energyUpdate s.energy dyn)) := by
      rw [hthr]; exact fun hx => hnp ((hpiff _).mp hx)
    simp [detectStep, if_neg hg, if_neg hv, if_neg hp]

theorem c8_extremum_conditions_witness :
    ¬ |(1/10 : ℚ)| < MIN_ACTIVITY_LEVEL
    ∧ adaptiveThreshold (energyUpdate (0 : ℚ) (1/10)) = specThreshold 0 (1/10)
    ∧ (detectStep
        { prevDyn := -1/2, prevPrevDyn := 0, lastPeakTime := 0, pendingPeak := false,
          lastWasValley := false, energy := 0, stepCount := 0 } (1/10) 0).1.lastWasValley
        = true := by
  have hg : ¬ |(1/10 : ℚ)| < MIN_ACTIVITY_LEVEL := by
    norm_num [MIN_ACTIVITY_LEVEL, abs_of_nonneg]
  refine ⟨hg,
    (c8_extremum_conditions
      { prevDyn := -1/2, prevPrevDyn := 0, lastPeakTime := 0, pendingPeak := false,
        lastWasValley := false, energy := 0, stepCount := 0 } (1/10) 0 hg).1,
    (c8_extremum_conditions
      { prevDyn := -1/2, prevPrevDyn := 0, lastPeakTime := 0, pendingPeak := false,
        lastWasValley := false, energy := 0, stepCount := 0 } (1/10) 0 hg).2.2.2.1 ?_⟩
  norm_num [specIsValley, specThreshold, abs_of_nonneg]

/-! ### C10: minimum separation of confirmed steps -/

/-- Invariant run lemma: along a stream of non-decreasing timestamps, all
at or after the current last-peak time, the emitted events are pairwise
separated by more than the minimum step period, and every event exceeds
the starting last-peak time by more than that period. -/
theorem runDetector_gap (samples : List (ℚ × ℤ)) :
    ∀ s : DetectorState,
      samples.Pairwise (fun a b => a.2 ≤ b.2) →
      (∀ p ∈ samples, s.lastPeakTime ≤ p.2) →
      (runDetector s samples).2.Pairwise (fun a b => MIN_STEP_PERIOD < b - a)
      ∧ ∀ e ∈ (runDetector s samples).2, MIN_STEP_PERIOD < e - s.lastPeakTime := by
  induction samples with
  | nil => intro s _ _; simp [runDetector_nil]
  | cons p rest ih =>
      intro s hsort hlb
      obtain ⟨dyn, t⟩ := p
      obtain ⟨hsort_head, hsort_rest⟩ := List.pairwise_cons.mp hsort
      have hst : s.lastPeakTime ≤ t := hlb (dyn, t) (List.mem_cons_self _ _)
      rcases hq : detectStep s dyn t with ⟨s1, ev⟩
      have hlpt1 : s1.lastPeakTime = s.lastPeakTime ∨ s1.lastPeakTime = t := by
        have h := detectStep_lastPeakTime s dyn t
        rw [hq] at h
        exact h
      have hs1t : s1.lastPeakTime ≤ t := by
        rcases hlpt1 with h | h
        · rw [h]; exact hst
        · rw [h]
      have hs01 : s.lastPeakTime ≤ s1.lastPeakTime := by
        rcases hlpt1 with h | h
        · rw [h]
        · rw [h]; exact hst
      have hlb1 : ∀ q ∈ rest, s1.lastPeakTime ≤ q.2 :=
        fun q hqm => le_trans hs1t (hsort_head q hqm)
      obtain ⟨ihP, ihE⟩ := ih s1 hsort_rest hlb1
      rw [runDetector_cons rest hq]
      cases ev with
      | none =>
          simp only [Option.toList, List.nil_append]
          exact ⟨ihP, fun e he => by have h1 := ihE e he; linarith⟩
      | some e0 =>
          have hsome : (detectStep s dyn t).2 = some e0 := by rw [hq]
          obtain ⟨he0, hlpt⟩ := detectStep_emit_some hsome
          have hper := (detectStep_emit_period hsome).1
          rw [hq] at hlpt
          subst he0
          simp only [Option.toList, List.cons_append, List.nil_append]
          constructor
          · refine List.pairwise_cons.mpr ⟨fun e he => ?_, ihP⟩
            have h1 := ihE e he
            rw [hlpt] at h1
            exact h1
          · intro e he
            rcases List.mem_cons.mp he with rfl | he'
            · exact hper
            · have h1 := ihE e he'
              rw [hlpt] at h1
              linarith

/-- Claim C10: with samples processed in order under non-decreasing, non-negative
timestamps, any two confirmed StepEvents are separated by strictly more
than the minimum step period; each confirmation requires the elapsed time
since the most recently detected peak to exceed that period, and a peak
detected on a non-gated sample always refreshes the last-peak timestamp,
confirmed or not. -/
theorem c10_min_separation :
    (∀ samples : List (ℚ × ℤ),
      samples.Pairwise (fun a b => a.2 ≤ b.2) →
      (∀ p ∈ samples, 0 ≤ p.2) →
      (runDetector initState samples).2.Pairwise (fun a b => MIN_STEP_PERIOD < b - a))
    ∧ (∀ (s : DetectorState) (dyn : ℚ) (now e : ℤ),
        (detectStep s dyn now).2 = some e →
        e = now ∧ MIN_STEP_PERIOD < now - s.lastPeakTime)
    ∧ (∀ (s : DetectorState) (dyn : ℚ) (now : ℤ),
        ¬ |dyn| < MIN_ACTIVITY_LEVEL →
        isPeak s.prevPrevDyn s.prevDyn dyn (adaptiveThreshold (energyUpdate s.energy dyn)) →
        (detectStep s dyn now).1.lastPeakTime = now) := by
  refine ⟨fun samples hs h0 => (runDetector_gap samples initState hs fun p hp => h0 p hp).1,
    fun s dyn now e h => ⟨(detectStep_emit_some h).1, (detectStep_emit_period h).1⟩,
    fun s dyn now hg hp => detectStep_peak_refreshes now hg hp⟩

theorem c10_min_separation_witness :
    (runDetector initState cleanTrace).2.Pairwise (fun a b => MIN_STEP_PERIOD < b - a)
    ∧ (10650 = (10650:ℤ) ∧ MIN_STEP_PERIOD < 10650 - T5.lastPeakTime)
    ∧ (detectStep T5 (1/10) 10650).1.lastPeakTime = 10650 := by
  refine ⟨c10_min_separation.1 cleanTrace ?_ ?_,
    c10_min_separation.2.1 T5 (1/10) 10650 10650 (by rw [dT6]),
    c10_min_separation.2.2 T5 (1/10) 10650
      (by norm_num [MIN_ACTIVITY_LEVEL, abs_of_nonneg])
      (by norm_num [isPeak, T5, adaptiveThreshold, energyUpdate, ENERGY_ALPHA,
        MIN_PEAK_THRESHOLD, THRESHOLD_GAIN, abs_of_nonneg])⟩
  · rw [cleanTrace]
    norm_num
  · rw [cleanTrace]
    norm_num

end StepDetection
